import Mathlib

namespace VolRegime

/-!
Shallow embedding of the Real-Time Volatility Regime Classifier and
Adaptive Options Strategy Engine.

The repository sources contain the README (which embeds the Backtest page),
the frontend pages (Dashboard, StrategyAnalysis, Backtest) and the Python
requirements file.  The analytical core (FeatureExtractor, RegimeClassifier,
OptionsPricer, StrategyCatalog, BacktestSimulator, StrategyAnalyzer) is not
present in the sources; where a definition below embeds that missing core it
is modelled from the specification and its doc comment says so explicitly.
Rational numbers stand in for the floating-point values of the
implementation; transcendental kernels (exp, log, sqrt, the standard normal
CDF and PDF) are abstracted as explicit function parameters so that every
definition stays executable.
-/

/-- The four volatility regimes; a closed enumeration (spec section 3). -/
inductive Regime where
  | Calm
  | Trending
  | MeanReverting
  | Explosive
deriving DecidableEq, Repr, Fintype

/-- A feature vector is a fixed ordered list of numeric features. -/
def FeatureVector : Type := List ℚ

/-- Sum of a probability assignment over the four regimes. -/
def sumProbs (p : Regime → ℚ) : ℚ :=
  p Regime.Calm + p Regime.Trending + p Regime.MeanReverting + p Regime.Explosive

/-- Position of a regime in the documented tie-break priority order
Explosive, Trending, MeanReverting, Calm (spec section 4.2). -/
def priorityIndex : Regime → ℕ
  | Regime.Explosive => 0
  | Regime.Trending => 1
  | Regime.MeanReverting => 2
  | Regime.Calm => 3

/-- Modelled from the spec: the argmax of a regime probability assignment with
ties broken by the fixed priority order Explosive, Trending, MeanReverting,
Calm (spec section 4.2); the RegimeClassifier implementation is not in the
repository sources. -/
def pickRegime (p : Regime → ℚ) : Regime :=
  if p Regime.Explosive ≥ p Regime.Trending ∧ p Regime.Explosive ≥ p Regime.MeanReverting ∧
      p Regime.Explosive ≥ p Regime.Calm then
    Regime.Explosive
  else if p Regime.Trending ≥ p Regime.MeanReverting ∧ p Regime.Trending ≥ p Regime.Calm then
    Regime.Trending
  else if p Regime.MeanReverting ≥ p Regime.Calm then
    Regime.MeanReverting
  else
    Regime.Calm

/-- Result of a classification: regime, per-regime probabilities, confidence. -/
structure RegimeClassification where
  regime : Regime
  probabilities : Regime → ℚ
  confidence : ℚ

/-- Modelled from the spec: the trained classifier parameters, a static
ensemble model, a sequence-aware model, the configured sequence length and
blend weight (spec sections 4.2 and 9); not in the repository sources. -/
structure ClassifierModel where
  staticModel : FeatureVector → Regime → ℚ
  seqModel : List FeatureVector → Regime → ℚ
  seqLen : ℕ
  blendWeight : ℚ

/-- Modelled from the spec: two-stage classify (spec section 4.2).  The static
model gives one distribution; when a recent history of at least the configured
sequence length is supplied the sequence model gives a second one and the two
are blended with the configured weight, otherwise the static distribution is
used alone.  Chosen regime is the tie-broken argmax and confidence is its
probability mass. -/
def classify (M : ClassifierModel) (features : FeatureVector)
    (history : Option (List FeatureVector)) : RegimeClassification :=
  let ps := M.staticModel features
  let p : Regime → ℚ :=
    match history with
    | some h =>
        if M.seqLen ≤ h.length then
          fun r => M.blendWeight * ps r + (1 - M.blendWeight) * M.seqModel h r
        else ps
    | none => ps
  let chosen := pickRegime p
  { regime := chosen, probabilities := p, confidence := p chosen }

/-- Typed failures of the core (spec section 7). -/
inductive CoreError where
  | InsufficientHistory
  | InvalidInstrumentParameters
  | ModelNotLoaded
  | UnsupportedStrategyType
deriving DecidableEq, Repr

/-- Call or put side of an option leg. -/
inductive OptionType where
  | call
  | put
deriving DecidableEq, Repr

/-- An option leg (spec section 3): side, strike, expiration in days, signed
quantity. -/
structure OptionLeg where
  option_type : OptionType
  strike : ℚ
  days_to_expiry : Int
  quantity : Int
deriving DecidableEq, Repr

/-- Sensitivities of an option or strategy value (spec section 3). -/
structure Greeks where
  delta : ℚ
  gamma : ℚ
  theta : ℚ
  vega : ℚ
deriving DecidableEq, Repr

/-- Transcendental kernels of the closed-form pricing model, abstracted as
rational-valued functions: exponential, natural log, square root, standard
normal CDF and PDF. -/
structure AnalyticKernel where
  kexp : ℚ → ℚ
  klog : ℚ → ℚ
  ksqrt : ℚ → ℚ
  ncdf : ℚ → ℚ
  npdf : ℚ → ℚ

/-- Time to expiry in years, max(days_to_expiry, 0) / 365 (spec section 4.3). -/
def yearsToExpiry (days : Int) : ℚ := ((max days 0 : Int) : ℚ) / 365

/-- Intrinsic value of an option at expiry. -/
def intrinsicValue (t : OptionType) (underlying strike : ℚ) : ℚ :=
  match t with
  | OptionType.call => max (underlying - strike) 0
  | OptionType.put => max (strike - underlying) 0

/-- Delta of an option at exactly zero time-to-expiry: an indicator of
moneyness. -/
def zeroExpiryDelta (t : OptionType) (underlying strike : ℚ) : ℚ :=
  match t with
  | OptionType.call => if strike < underlying then 1 else 0
  | OptionType.put => if underlying < strike then -1 else 0

/-- Auxiliary d1 term of the closed-form model. -/
def bsD1 (A : AnalyticKernel) (K S v r T : ℚ) : ℚ :=
  (A.klog (S / K) + (r + v * v / 2) * T) / (v * A.ksqrt T)

/-- Auxiliary d2 term of the closed-form model. -/
def bsD2 (A : AnalyticKernel) (K S v r T : ℚ) : ℚ :=
  bsD1 A K S v r T - v * A.ksqrt T

/-- Theoretical price of one option of either side under the closed-form
model at positive time-to-expiry. -/
def bsPrice (A : AnalyticKernel) (t : OptionType) (K S v r T : ℚ) : ℚ :=
  match t with
  | OptionType.call =>
      S * A.ncdf (bsD1 A K S v r T) - K * A.kexp (-(r * T)) * A.ncdf (bsD2 A K S v r T)
  | OptionType.put =>
      K * A.kexp (-(r * T)) * A.ncdf (-(bsD2 A K S v r T)) - S * A.ncdf (-(bsD1 A K S v r T))

/-- Greeks of one option under the closed-form model at positive
time-to-expiry. -/
def bsGreeks (A : AnalyticKernel) (t : OptionType) (K S v r T : ℚ) : Greeks :=
  let d1 := bsD1 A K S v r T
  let d2 := bsD2 A K S v r T
  let sqrtT := A.ksqrt T
  let disc := A.kexp (-(r * T))
  match t with
  | OptionType.call =>
      ⟨A.ncdf d1, A.npdf d1 / (S * v * sqrtT),
        -(S * A.npdf d1 * v) / (2 * sqrtT) - r * K * disc * A.ncdf d2,
        S * A.npdf d1 * sqrtT⟩
  | OptionType.put =>
      ⟨A.ncdf d1 - 1, A.npdf d1 / (S * v * sqrtT),
        -(S * A.npdf d1 * v) / (2 * sqrtT) + r * K * disc * A.ncdf (-d2),
        S * A.npdf d1 * sqrtT⟩

/-- Modelled from the spec: price_leg (spec section 4.3); the OptionsPricer
implementation is not in the repository sources.  Closed-form European
(Black-Scholes style) price and Greeks; fails with
InvalidInstrumentParameters for a negative strike, non-positive underlying,
negative volatility or negative rate; at time-to-expiry exactly zero it
degenerates to intrinsic value with zero gamma, vega and theta. -/
def price_leg (A : AnalyticKernel) (leg : OptionLeg)
    (underlying_price volatility risk_free_rate : ℚ) :
    Except CoreError (ℚ × Greeks) :=
  if leg.strike < 0 ∨ underlying_price ≤ 0 ∨ volatility < 0 ∨ risk_free_rate < 0 then
    Except.error CoreError.InvalidInstrumentParameters
  else
    let T := yearsToExpiry leg.days_to_expiry
    if T = 0 then
      Except.ok (intrinsicValue leg.option_type underlying_price leg.strike,
        ⟨zeroExpiryDelta leg.option_type underlying_price leg.strike, 0, 0, 0⟩)
    else
      Except.ok (bsPrice A leg.option_type leg.strike underlying_price volatility risk_free_rate T,
        bsGreeks A leg.option_type leg.strike underlying_price volatility risk_free_rate T)

/-- A market snapshot (spec section 3): timestamp (as a day index), close,
VIX-like value, realized volatility, ATM implied volatility, IV skew. -/
structure MarketSnapshot where
  timestamp : ℕ
  close : ℚ
  vix : ℚ
  realized_vol : ℚ
  implied_vol_atm : ℚ
  skew : ℚ
deriving DecidableEq, Repr

/-- A point of the backtest P&L series (spec section 3). -/
structure PnlPoint where
  timestamp : ℕ
  pnl : ℚ
deriving DecidableEq, Repr

/-- Mean of a list of rationals, 0 on the empty list. -/
def mean (xs : List ℚ) : ℚ :=
  if xs.length = 0 then 0 else xs.sum / xs.length

/-- Population variance of a list of rationals, 0 on the empty list. -/
def variance (xs : List ℚ) : ℚ :=
  if xs.length = 0 then 0 else ((xs.map fun x => (x - mean xs) ^ 2).sum) / xs.length

/-- Daily P&L changes of a cumulative P&L series that starts from zero. -/
def dailyChanges (cums : List ℚ) : List ℚ :=
  List.zipWith (fun a b => a - b) cums (0 :: cums)

/-- Fraction of strictly positive daily P&L changes, 0 when there are no
changes (spec section 4.6). -/
def winRate (changes : List ℚ) : ℚ :=
  if changes.length = 0 then 0
  else ((changes.countP fun x => decide (0 < x) : ℕ) : ℚ) / (changes.length : ℚ)

/-- One step of the drawdown scan: update the running maximum of cumulative
P&L and the minimum of (cumulative P&L minus running maximum). -/
def drawdownStep (st : ℚ × ℚ) (x : ℚ) : ℚ × ℚ :=
  (max st.1 x, min st.2 (x - max st.1 x))

/-- Maximum drawdown: minimum over time of cumulative P&L minus the running
maximum of cumulative P&L so far, a non-positive number (spec section 4.6). -/
def maxDrawdown (cums : List ℚ) : ℚ :=
  (cums.foldl drawdownStep (0, 0)).2

/-- Documented sentinel for an undefined Sharpe ratio (zero variance of the
daily P&L changes or near-zero payoff variance). -/
def sharpeSentinel : ℚ := 0

/-- Modelled from the spec: the backtest summary Sharpe ratio, mean of daily
P&L changes over their standard deviation, sentinel when the standard
deviation is zero (spec section 4.6); the BacktestSimulator implementation is
not in the repository sources. -/
def backtestSharpe (A : AnalyticKernel) (changes : List ℚ) : ℚ :=
  if variance changes = 0 then sharpeSentinel
  else mean changes / A.ksqrt (variance changes)

/-- Modelled from the spec: the configured near-zero variance guard of the
StrategyAnalyzer (spec section 4.5). -/
def varianceGuard : ℚ := 1 / 1000000000000

/-- Modelled from the spec: the analyzer risk-metrics Sharpe ratio, expected
profit over the payoff-distribution standard deviation, sentinel when the
variance is near zero (spec section 4.5); the StrategyAnalyzer implementation
is not in the repository sources. -/
def analyzerSharpe (A : AnalyticKernel) (expected_profit : ℚ) (payoffs : List ℚ) : ℚ :=
  if variance payoffs ≤ varianceGuard then sharpeSentinel
  else expected_profit / A.ksqrt (variance payoffs)

/-- Summary statistics of a backtest run (spec sections 3 and 4.6). -/
structure SummaryStatistics where
  total_return : ℚ
  win_rate : ℚ
  max_drawdown : ℚ
  sharpe_ratio : ℚ
deriving DecidableEq, Repr

/-- Result of a backtest run (spec section 3). -/
structure BacktestResult where
  pnl_series : List PnlPoint
  summary_statistics : SummaryStatistics
deriving DecidableEq, Repr

/-- Modelled from the spec: the summary statistics computed once at the end
over the full P&L series (spec section 4.6). -/
def summaryStats (A : AnalyticKernel) (series : List PnlPoint) : SummaryStatistics :=
  let cums := series.map PnlPoint.pnl
  let changes := dailyChanges cums
  { total_return := cums.getLast?.getD 0
    win_rate := winRate changes
    max_drawdown := maxDrawdown cums
    sharpe_ratio := backtestSharpe A changes }

/-- Modelled from the spec: the mark-to-market loop of the backtest (spec
section 4.6); the BacktestSimulator implementation is not in the repository
sources.  The open instance is valued by the supplied valuation function
(entry snapshot, current snapshot); when the instance reaches its expiration
it is closed (its value at that snapshot realizes into the cumulative P&L)
and a new instance is opened at the snapshot of that day. -/
def mtmSeries (value : MarketSnapshot → MarketSnapshot → ℚ) (expiration_days : ℕ) :
    MarketSnapshot → ℚ → List MarketSnapshot → List PnlPoint
  | _, _, [] => []
  | entry, realized, cur :: rest =>
      let cum := realized + value entry cur - value entry entry
      if entry.timestamp + expiration_days ≤ cur.timestamp then
        ⟨cur.timestamp, cum⟩ :: mtmSeries value expiration_days cur cum rest
      else
        ⟨cur.timestamp, cum⟩ :: mtmSeries value expiration_days entry realized rest

/-- Modelled from the spec: the backtest run (spec section 4.6); the
BacktestSimulator implementation is not in the repository sources.  Opens an
instance on the first snapshot, marks to market on each subsequent snapshot,
and fails with InsufficientHistory when fewer than 2 snapshots are given. -/

def run (A : AnalyticKernel) (value : MarketSnapshot → MarketSnapshot → ℚ)
    (snapshots : List MarketSnapshot) (expiration_days : ℕ) :
    Except CoreError BacktestResult :=
  match snapshots with
  | s0 :: s1 :: rest =>
      let series := mtmSeries value expiration_days s0 0 (s1 :: rest)
      Except.ok ⟨series, summaryStats A series⟩
  | _ => Except.error CoreError.InsufficientHistory

/-- Modelled from the spec: the minimum lookback required by the costliest
feature, a 20-sample realized-volatility estimator (spec section 4.1). -/
def minLookback : ℕ := 20

/-- Modelled from the spec: extract (spec section 4.1); the FeatureExtractor
implementation is not in the repository sources.  Realized volatility over
several lookbacks, IV-term-structure slope, skew level and change, momentum,
and a volatility-of-volatility proxy; fails with InsufficientHistory on a
window shorter than the minimum lookback. -/
def extract (A : AnalyticKernel) (window : List MarketSnapshot) :
    Except CoreError FeatureVector :=
  if window.length < minLookback then Except.error CoreError.InsufficientHistory
  else
    let closes := window.map MarketSnapshot.close
    let rets := List.zipWith (fun a b => A.klog (b / a)) closes closes.tail
    let rv (k : ℕ) : ℚ :=
      A.ksqrt (252 * ((rets.drop (rets.length - k)).map fun x => x * x).sum / k)
    let ivs := window.map MarketSnapshot.implied_vol_atm
    let vixs := window.map MarketSnapshot.vix
    let skews := window.map MarketSnapshot.skew
    let lastClose := closes.getLast?.getD 1
    let firstClose := closes.head?.getD 1
    Except.ok [rv 5, rv 10, rv 20,
      ivs.getLast?.getD 0 - (vixs.getLast?.getD 0) / 100,
      skews.getLast?.getD 0,
      skews.getLast?.getD 0 - skews.head?.getD 0,
      (lastClose - firstClose) / firstClose,
      variance vixs]

/-- A strategy template (spec section 3): name, description, risk profile
label, typical duration, per-regime affinity weights, and the flags consulted
by the two multiplicative fit factors. -/
structure StrategyTemplate where
  name : String
  description : String
  risk_profile : String
  duration : String
  affinity : Regime → ℚ
  calendarType : Bool
  skewSensitive : Bool

/-- A strategy recommendation (spec section 3). -/
structure StrategyRecommendation where
  name : String
  description : String
  risk_profile : String
  duration : String
  score : ℚ
deriving DecidableEq, Repr

/-- Modelled from the spec: the closed, statically declared strategy catalog
(spec sections 4.4 and 9); the StrategyCatalog implementation is not in the
repository sources.  The five templates carry the identifiers used by the
frontend strategy selectors, with regime affinities following the
regime-to-strategy table of the README. -/
def catalog : List StrategyTemplate :=
  [ { name := "calendar_spread", description := "Sell near-term and buy far-term at one strike",
      risk_profile := "defined_risk", duration := "30-60 days",
      affinity := fun r => match r with
        | Regime.Calm => 9/10
        | Regime.Trending => 3/10
        | Regime.MeanReverting => 1/2
        | Regime.Explosive => 1/10,
      calendarType := true, skewSensitive := false },
    { name := "butterfly", description := "Iron butterfly centered at the money",
      risk_profile := "defined_risk", duration := "20-45 days",
      affinity := fun r => match r with
        | Regime.Calm => 4/5
        | Regime.Trending => 1/5
        | Regime.MeanReverting => 3/5
        | Regime.Explosive => 1/10,
      calendarType := false, skewSensitive := false },
    { name := "straddle", description := "Long straddle at the money",
      risk_profile := "long_volatility", duration := "15-45 days",
      affinity := fun r => match r with
        | Regime.Calm => 1/10
        | Regime.Trending => 2/5
        | Regime.MeanReverting => 1/5
        | Regime.Explosive => 9/10,
      calendarType := false, skewSensitive := false },
    { name := "iron_condor", description := "Iron condor around the expected range",
      risk_profile := "defined_risk", duration := "30-60 days",
      affinity := fun r => match r with
        | Regime.Calm => 3/5
        | Regime.Trending => 3/10
        | Regime.MeanReverting => 9/10
        | Regime.Explosive => 1/10,
      calendarType := false, skewSensitive := false },
    { name := "backspread", description := "Ratio back spread favoring a volatility expansion",
      risk_profile := "long_volatility", duration := "20-60 days",
      affinity := fun r => match r with
        | Regime.Calm => 1/10
        | Regime.Trending => 3/5
        | Regime.MeanReverting => 1/5
        | Regime.Explosive => 4/5,
      calendarType := false, skewSensitive := true } ]

/-- Modelled from the spec: term-structure fit factor in the unit interval,
rewarding calendar-type structures when the slope favors them (spec
section 4.4). -/
def termStructureFactor (t : StrategyTemplate) (slope : ℚ) : ℚ :=
  if t.calendarType then (if 0 < slope then 1 else 1/2) else 1

/-- Modelled from the spec: the configured skew-magnitude threshold of the
skew fit factor (spec section 4.4). -/
def skewThreshold : ℚ := 1/10

/-- Modelled from the spec: skew fit factor in the unit interval, rewarding
skew-sensitive structures when the skew magnitude exceeds the configured
threshold (spec section 4.4). -/
def skewFitFactor (t : StrategyTemplate) (skew : ℚ) : ℚ :=
  if t.skewSensitive then (if skewThreshold < |skew| then 1 else 1/2) else 1

/-- Regime-affinity weighted dot product of the classification probabilities
with the affinities of a template (spec section 4.4). -/
def dotAffinity (p : Regime → ℚ) (t : StrategyTemplate) : ℚ :=
  sumProbs fun r => p r * t.affinity r

/-- Modelled from the spec: the score of a template, the affinity-weighted
probability mass adjusted by the two multiplicative fit factors (spec
section 4.4). -/
def scoreTemplate (c : RegimeClassification) (term_structure_slope skew : ℚ)
    (t : StrategyTemplate) : ℚ :=
  dotAffinity c.probabilities t * termStructureFactor t term_structure_slope *
    skewFitFactor t skew

/-- Recommendation built from a template and its score. -/
def mkRecommendation (t : StrategyTemplate) (s : ℚ) : StrategyRecommendation :=
  ⟨t.name, t.description, t.risk_profile, t.duration, s⟩

/-- Annotate a list with declaration indices starting at the given index. -/
def annotate : ℕ → List StrategyRecommendation → List (ℕ × StrategyRecommendation)
  | _, [] => []
  | i, x :: xs => (i, x) :: annotate (i + 1) xs

/-- Ranking order on annotated recommendations: strictly higher score first,
ties broken by the smaller declaration index (spec section 4.4). -/
def recBefore (a b : ℕ × StrategyRecommendation) : Prop :=
  b.2.score < a.2.score ∨ (a.2.score = b.2.score ∧ a.1 ≤ b.1)

instance : DecidableRel recBefore := fun a b => by
  unfold recBefore
  exact inferInstance

instance : IsTotal (ℕ × StrategyRecommendation) recBefore where
  total a b := by
    rcases lt_trichotomy a.2.score b.2.score with h | h | h
    · exact Or.inr (Or.inl h)
    · rcases Nat.le_total a.1 b.1 with hi | hi
      · exact Or.inl (Or.inr ⟨h, hi⟩)
      · exact Or.inr (Or.inr ⟨h.symm, hi⟩)
    · exact Or.inl (Or.inl h)

instance : IsTrans (ℕ × StrategyRecommendation) recBefore where
  trans a b c hab hbc := by
    rcases hab with h1 | ⟨e1, i1⟩ <;> rcases hbc with h2 | ⟨e2, i2⟩
    · exact Or.inl (lt_trans h2 h1)
    · exact Or.inl (by rw [← e2]; exact h1)
    · exact Or.inl (by rw [e1]; exact h2)
    · exact Or.inr ⟨e1.trans e2, le_trans i1 i2⟩

/-- Annotated scored templates in declaration order. -/
def annotatedRecs (c : RegimeClassification) (term_structure_slope skew : ℚ) :
    List (ℕ × StrategyRecommendation) :=
  annotate 0 (catalog.map fun t => mkRecommendation t (scoreTemplate c term_structure_slope skew t))

/-- Annotated recommendations ranked by score, ties by declaration index. -/
def rankedRecs (c : RegimeClassification) (term_structure_slope skew : ℚ) :
    List (ℕ × StrategyRecommendation) :=
  List.insertionSort recBefore (annotatedRecs c term_structure_slope skew)

/-- Modelled from the spec: recommend (spec section 4.4); the StrategyCatalog
implementation is not in the repository sources.  Scores every template of
the closed catalog and returns the full list ranked descending by score with
ties broken by declaration order. -/
def recommend (c : RegimeClassification) (term_structure_slope skew : ℚ) :
    List StrategyRecommendation :=
  (rankedRecs c term_structure_slope skew).map Prod.snd

/-- Risk metrics block of an analysis result (spec sections 4.5 and 6). -/
structure RiskMetrics where
  sharpe_ratio : ℚ
deriving DecidableEq, Repr

/-- Metrics block of an analysis result (spec sections 4.5 and 6). -/
structure AnalysisMetrics where
  expected_profit : ℚ
  max_loss : ℚ
  probability_of_profit : ℚ
  greeks : Greeks
  risk_metrics : RiskMetrics
deriving DecidableEq, Repr

/-- Result of a single-point strategy analysis (spec sections 4.5 and 6). -/
structure AnalysisResult where
  metrics : AnalysisMetrics
deriving DecidableEq, Repr

/-- Structured wire value of a result object, JSON-like: number, array, or
object with named fields. -/
inductive Wire where
  | num (q : ℚ)
  | arr (xs : List Wire)
  | obj (fields : List (String × Wire))

/-- Field names of an object wire value. -/
def objKeys : Wire → List String
  | Wire.obj fields => fields.map Prod.fst
  | _ => []

/-- Wire form of a P&L point, with the field names read by the Backtest page
chart (src/README.md embedded Backtest component). -/
def PnlPoint.toWire (p : PnlPoint) : Wire :=
  Wire.obj [("timestamp", Wire.num p.timestamp), ("pnl", Wire.num p.pnl)]

/-- Wire form of the summary statistics, with the field names read by the
Backtest page metrics cards (src/README.md embedded Backtest component). -/
def SummaryStatistics.toWire (s : SummaryStatistics) : Wire :=
  Wire.obj [("total_return", Wire.num s.total_return),
    ("win_rate", Wire.num s.win_rate),
    ("max_drawdown", Wire.num s.max_drawdown),
    ("sharpe_ratio", Wire.num (SummaryStatistics.sharpe_ratio s))]

/-- Wire form of a backtest result. -/
def BacktestResult.toWire (r : BacktestResult) : Wire :=
  Wire.obj [("pnl_series", Wire.arr (r.pnl_series.map PnlPoint.toWire)),
    ("summary_statistics", SummaryStatistics.toWire r.summary_statistics)]

/-- Wire form of the Greeks, with the field names read by the
StrategyAnalysis page (src/frontend/src/pages/Dashboard.tsx). -/
def Greeks.toWire (g : Greeks) : Wire :=
  Wire.obj [("delta", Wire.num g.delta), ("gamma", Wire.num g.gamma),
    ("theta", Wire.num g.theta), ("vega", Wire.num g.vega)]

/-- Wire form of the risk metrics block. -/
def RiskMetrics.toWire (rm : RiskMetrics) : Wire :=
  Wire.obj [("sharpe_ratio", Wire.num (RiskMetrics.sharpe_ratio rm))]

/-- Wire form of the analysis metrics block, with the field names read by the
StrategyAnalysis page (src/frontend/src/pages/Dashboard.tsx). -/
def AnalysisMetrics.toWire (m : AnalysisMetrics) : Wire :=
  Wire.obj [("expected_profit", Wire.num m.expected_profit),
    ("max_loss", Wire.num m.max_loss),
    ("probability_of_profit", Wire.num m.probability_of_profit),
    ("greeks", Greeks.toWire m.greeks),
    ("risk_metrics", RiskMetrics.toWire m.risk_metrics)]

/-- Wire form of an analysis result. -/
def AnalysisResult.toWire (a : AnalysisResult) : Wire :=
  Wire.obj [("metrics", AnalysisMetrics.toWire a.metrics)]

/-- Strategy selector options of the StrategyAnalysis page, value and label
(src/frontend/src/pages/Dashboard.tsx, strategyTypes). -/
def analysisStrategyTypes : List (String × String) :=
  [("calendar_spread", "Calendar Spread"),
   ("butterfly", "Iron Butterfly"),
   ("straddle", "Long Straddle"),
   ("iron_condor", "Iron Condor"),
   ("backspread", "Ratio Back Spread")]

/-- Strategy selector options of the Backtest page, value and label
(src/README.md embedded Backtest component, strategyTypes). -/
def backtestStrategyTypes : List (String × String) :=
  [("calendar_spread", "Calendar Spread"),
   ("butterfly", "Iron Butterfly"),
   ("straddle", "Long Straddle"),
   ("iron_condor", "Iron Condor"),
   ("backspread", "Ratio Back Spread")]

/-- Modelled from the spec: looking a requested strategy type up in the
closed catalog, failing with UnsupportedStrategyType for an unknown template
(spec section 7); the backend lookup is not in the repository sources. -/
def lookupTemplate (s : String) : Except CoreError StrategyTemplate :=
  match catalog.find? (fun t => t.name == s) with
  | some t => Except.ok t
  | none => Except.error CoreError.UnsupportedStrategyType

/-- Whether a core lookup succeeded. -/
def lookupOk (e : Except CoreError StrategyTemplate) : Bool :=
  match e with
  | Except.ok _ => true
  | Except.error _ => false

/-- Strategy type values the analysis page state can hold: its initial value
or a value offered by its selector (the select menu is the only writer of
strategy_type in the page state). -/
inductive AnalysisReachable : String → Prop where
  | init : AnalysisReachable "calendar_spread"
  | selected (v l : String) : (v, l) ∈ analysisStrategyTypes → AnalysisReachable v

/-- Strategy type values the backtest page state can hold: its initial value
or a value offered by its selector. -/
inductive BacktestReachable : String → Prop where
  | init : BacktestReachable "calendar_spread"
  | selected (v l : String) : (v, l) ∈ backtestStrategyTypes → BacktestReachable v

/-- Parameters of the strategy analysis page
(src/frontend/src/pages/Dashboard.tsx, StrategyParams). -/
structure StrategyParams where
  strategy_type : String
  expiration_days : Int
  strike_percentage : Int
  position_size : Int
deriving DecidableEq, Repr

/-- Initial form state of the analysis page
(src/frontend/src/pages/Dashboard.tsx, useState). -/
def defaultStrategyParams : StrategyParams := ⟨"calendar_spread", 30, 100, 1⟩

/-- Parameters of the backtest page (src/README.md embedded Backtest
component, BacktestParams). -/
structure BacktestParams where
  strategy_type : String
  days : Int
  expiration_days : Int
  strike_percentage : Int
  position_size : Int
deriving DecidableEq, Repr

/-- Initial form state of the backtest page (src/README.md embedded Backtest
component, useState). -/
def defaultBacktestParams : BacktestParams := ⟨"calendar_spread", 30, 30, 100, 1⟩

/-- HTTP method of a frontend request. -/
inductive HttpMethod where
  | get
  | post
deriving DecidableEq, Repr

/-- An outgoing frontend request: method, URL, query parameters, optional
JSON body fields. -/
structure HttpRequest where
  method : HttpMethod
  url : String
  query : List (String × String)
  body : Option (List (String × String))
deriving DecidableEq, Repr

/-- Base URL of the API used by both pages. -/
def API_BASE_URL : String := "http://localhost:8000/api/v1"

/-- Request sent by the analyzeStrategy mutation: a POST with the page
parameters as the JSON body (src/frontend/src/pages/Dashboard.tsx,
analyzeStrategy). -/
def analyzeRequest (p : StrategyParams) : HttpRequest :=
  { method := HttpMethod.post
    url := API_BASE_URL ++ "/strategy/analyze"
    query := []
    body := some [("strategy_type", p.strategy_type),
      ("expiration_days", toString p.expiration_days),
      ("strike_percentage", toString p.strike_percentage),
      ("position_size", toString p.position_size)] }

/-- Request sent by the backtestStrategy mutation: a GET with the page
parameters as URL query parameters (src/README.md embedded Backtest
component, backtestStrategy). -/
def backtestRequest (p : BacktestParams) : HttpRequest :=
  { method := HttpMethod.get
    url := API_BASE_URL ++ "/strategy/backtest"
    query := [("strategy_type", p.strategy_type),
      ("days", toString p.days),
      ("expiration_days", toString p.expiration_days),
      ("strike_percentage", toString p.strike_percentage),
      ("position_size", toString p.position_size)]
    body := none }

theorem pickRegime_isMax (p : Regime → ℚ) (r : Regime) : p r ≤ p (pickRegime p) := by
  unfold pickRegime
  split_ifs with h1 h2 h3
  · obtain ⟨a, b, c⟩ := h1
    cases r <;> linarith
  · obtain ⟨a, b⟩ := h2
    have hE : p Regime.Explosive ≤ p Regime.Trending := by
      by_contra hlt
      push_neg at hlt
      exact h1 ⟨le_of_lt hlt, by linarith, by linarith⟩
    cases r <;> linarith
  · have hT : p Regime.Trending ≤ p Regime.MeanReverting := by
      by_contra hlt
      push_neg at hlt
      exact h2 ⟨le_of_lt hlt, by linarith⟩
    have hE : p Regime.Explosive ≤ p Regime.MeanReverting := by
      by_contra hlt
      push_neg at hlt
      exact h1 ⟨by linarith, le_of_lt hlt, by linarith⟩
    cases r <;> linarith
  · push_neg at h3
    have hT : p Regime.Trending ≤ p Regime.Calm := by
      by_contra hlt
      push_neg at hlt
      exact h2 ⟨by linarith, le_of_lt hlt⟩
    have hE : p Regime.Explosive ≤ p Regime.Calm := by
      by_contra hlt
      push_neg at hlt
      exact h1 ⟨by linarith, by linarith, le_of_lt hlt⟩
    cases r <;> linarith

theorem pickRegime_tiebreak (p : Regime → ℚ) (r : Regime)
    (h : p r = p (pickRegime p)) : priorityIndex (pickRegime p) ≤ priorityIndex r := by
  revert h
  unfold pickRegime
  split_ifs with h1 h2 h3 <;> intro h
  · exact Nat.zero_le _
  · obtain ⟨a, b⟩ := h2
    cases r with
    | Explosive =>
        exact absurd ⟨ge_of_eq h, by linarith [ge_of_eq h], by linarith [ge_of_eq h]⟩ h1
    | Trending => exact le_refl _
    | MeanReverting => exact by simp [priorityIndex]
    | Calm => exact by simp [priorityIndex]
  · have hT : p Regime.Trending ≤ p Regime.MeanReverting := by
      by_contra hlt
      push_neg at hlt
      exact h2 ⟨le_of_lt hlt, by linarith⟩
    cases r with
    | Explosive =>
        exact absurd ⟨by linarith [ge_of_eq h], ge_of_eq h, by linarith [ge_of_eq h]⟩ h1
    | Trending => exact absurd ⟨ge_of_eq h, by linarith [ge_of_eq h]⟩ h2
    | MeanReverting => exact le_refl _
    | Calm => exact by simp [priorityIndex]
  · push_neg at h3
    have hT : p Regime.Trending ≤ p Regime.Calm := by
      by_contra hlt
      push_neg at hlt
      exact h2 ⟨by linarith, le_of_lt hlt⟩
    cases r with
    | Explosive =>
        exact absurd ⟨by linarith [ge_of_eq h], by linarith [ge_of_eq h], ge_of_eq h⟩ h1
    | Trending => exact absurd ⟨by linarith [ge_of_eq h], ge_of_eq h⟩ h2
    | MeanReverting => exact absurd (ge_of_eq h) (not_le_of_lt h3)
    | Calm => exact le_refl _

/-- C2: for every RegimeClassification returned by classify, the four
per-regime probabilities sum to 1 within 1e-6, the chosen regime is the argmax
of the blended probabilities with ties broken by the fixed priority order
Explosive, Trending, MeanReverting, Calm, and the confidence field equals the
probability of the chosen regime. -/
theorem classify_probs_argmax_confidence (M : ClassifierModel) (f : FeatureVector)
    (history : Option (List FeatureVector))
    (hstatic : ∀ g, sumProbs (M.staticModel g) = 1)
    (hseq : ∀ hs, sumProbs (M.seqModel hs) = 1) :
    |sumProbs (classify M f history).probabilities - 1| ≤ 1 / 1000000 ∧
    (∀ r, (classify M f history).probabilities r ≤
      (classify M f history).probabilities (classify M f history).regime) ∧
    (∀ r, (classify M f history).probabilities r =
        (classify M f history).probabilities (classify M f history).regime →
      priorityIndex (classify M f history).regime ≤ priorityIndex r) ∧
    (classify M f history).confidence =
      (classify M f history).probabilities (classify M f history).regime := by
  have hsum : sumProbs (classify M f history).probabilities = 1 := by
    unfold classify
    match history with
    | none => exact hstatic f
    | some h =>
        by_cases hlen : M.seqLen ≤ h.length
        · simp only [hlen, if_true]
          have h1 := hstatic f
          have h2 := hseq h
          unfold sumProbs at *
          linear_combination M.blendWeight * h1 + (1 - M.blendWeight) * h2
        · simp only [hlen, if_false]
          exact hstatic f
  refine ⟨by rw [hsum]; norm_num, ?_, ?_, ?_⟩
  · intro r
    exact pickRegime_isMax _ r
  · intro r hr
    exact pickRegime_tiebreak _ r hr
  · rfl

/-- Witness for C2 at a concrete classifier model, feature vector and
history. -/
theorem classify_probs_argmax_confidence_witness :
    (∀ g, sumProbs ((⟨fun _ _ => 1/4, fun _ _ => 1/4, 2, 1/2⟩ :
        ClassifierModel).staticModel g) = 1) ∧
    |sumProbs (classify ⟨fun _ _ => 1/4, fun _ _ => 1/4, 2, 1/2⟩ [1, 2]
        (some [[1], [2]])).probabilities - 1| ≤ 1 / 1000000 := by
  have h := classify_probs_argmax_confidence ⟨fun _ _ => 1/4, fun _ _ => 1/4, 2, 1/2⟩
    [1, 2] (some [[1], [2]]) (fun _ => by norm_num [sumProbs])
    (fun _ => by norm_num [sumProbs])
  exact ⟨fun _ => by norm_num [sumProbs], h.1⟩

/-- C4: for every option leg with days_to_expiry equal to 0 and valid inputs
(non-negative volatility and rate, positive underlying, non-negative strike),
price_leg returns exactly the intrinsic value as the theoretical price and
exactly 0 for gamma, vega and theta. -/
theorem price_leg_zero_expiry_intrinsic (A : AnalyticKernel) (leg : OptionLeg)
    (S v r : ℚ) (hd : leg.days_to_expiry = 0) (hK : 0 ≤ leg.strike)
    (hS : 0 < S) (hv : 0 ≤ v) (hr : 0 ≤ r) :
    price_leg A leg S v r =
      Except.ok (intrinsicValue leg.option_type S leg.strike,
        ⟨zeroExpiryDelta leg.option_type S leg.strike, 0, 0, 0⟩) := by
  have hT : yearsToExpiry leg.days_to_expiry = 0 := by
    simp [yearsToExpiry, hd]
  rw [price_leg, if_neg, if_pos hT]
  push_neg
  exact ⟨hK, hS, hv, hr⟩

/-- Witness for C4 at a concrete expiring call leg. -/
theorem price_leg_zero_expiry_intrinsic_witness :
    (⟨OptionType.call, 90, 0, 1⟩ : OptionLeg).days_to_expiry = 0 ∧
    (0:ℚ) ≤ (⟨OptionType.call, 90, 0, 1⟩ : OptionLeg).strike ∧
    price_leg ⟨id, id, id, id, id⟩ ⟨OptionType.call, 90, 0, 1⟩ 100 (1/5) 0 =
      Except.ok (intrinsicValue OptionType.call 100 90,
        ⟨zeroExpiryDelta OptionType.call 100 90, 0, 0, 0⟩) := by
  refine ⟨rfl, by norm_num, ?_⟩
  exact price_leg_zero_expiry_intrinsic ⟨id, id, id, id, id⟩ ⟨OptionType.call, 90, 0, 1⟩
    100 (1/5) 0 rfl (by norm_num) (by norm_num) (by norm_num) le_rfl

/-- C5: for a call and a put sharing strike, expiry and volatility, priced
with the same underlying price and rate, put-call parity holds: call price
minus put price equals the underlying price minus the strike times the
discount factor, given that the normal-CDF kernel satisfies its complement
identity. -/
theorem put_call_parity (A : AnalyticKernel)
    (hcdf : ∀ x, A.ncdf x + A.ncdf (-x) = 1)
    (K S v r : ℚ) (days : Int) (q1 q2 : Int)
    (hK : 0 ≤ K) (hS : 0 < S) (hv : 0 ≤ v) (hr : 0 ≤ r) (hdays : 0 < days) :
    price_leg A ⟨OptionType.call, K, days, q1⟩ S v r =
      Except.ok (bsPrice A OptionType.call K S v r (yearsToExpiry days),
        bsGreeks A OptionType.call K S v r (yearsToExpiry days)) ∧
    price_leg A ⟨OptionType.put, K, days, q2⟩ S v r =
      Except.ok (bsPrice A OptionType.put K S v r (yearsToExpiry days),
        bsGreeks A OptionType.put K S v r (yearsToExpiry days)) ∧
    bsPrice A OptionType.call K S v r (yearsToExpiry days) -
        bsPrice A OptionType.put K S v r (yearsToExpiry days) =
      S - K * A.kexp (-(r * yearsToExpiry days)) := by
  have hmax : max days 0 = days := max_eq_left (le_of_lt hdays)
  have hT : yearsToExpiry days ≠ 0 := by
    simp only [yearsToExpiry, hmax]
    intro hc
    rw [div_eq_zero_iff] at hc
    rcases hc with hc | hc
    · have : days = 0 := by exact_mod_cast hc
      omega
    · norm_num at hc
  have hvalid : ¬(K < 0 ∨ S ≤ 0 ∨ v < 0 ∨ r < 0) := by
    push_neg
    exact ⟨hK, hS, hv, hr⟩
  refine ⟨?_, ?_, ?_⟩
  · rw [price_leg, if_neg hvalid, if_neg hT]
  · rw [price_leg, if_neg hvalid, if_neg hT]
  · simp only [bsPrice]
    linear_combination S * hcdf (bsD1 A K S v r (yearsToExpiry days)) -
      K * A.kexp (-(r * yearsToExpiry days)) * hcdf (bsD2 A K S v r (yearsToExpiry days))

/-- Witness for C5 at a concrete kernel and inputs: the constant one-half CDF
satisfies the complement identity, and parity is checked on a 30-day pair. -/
theorem put_call_parity_witness :
    (∀ x, (⟨id, id, id, fun _ => 1/2, id⟩ : AnalyticKernel).ncdf x +
      (⟨id, id, id, fun _ => 1/2, id⟩ : AnalyticKernel).ncdf (-x) = 1) ∧
    bsPrice ⟨id, id, id, fun _ => 1/2, id⟩ OptionType.call 100 100 (1/5) (1/100)
        (yearsToExpiry 30) -
      bsPrice ⟨id, id, id, fun _ => 1/2, id⟩ OptionType.put 100 100 (1/5) (1/100)
        (yearsToExpiry 30) =
      100 - 100 * (⟨id, id, id, fun _ => 1/2, id⟩ : AnalyticKernel).kexp
        (-(1/100 * yearsToExpiry 30)) := by
  refine ⟨fun x => by norm_num, ?_⟩
  exact (put_call_parity ⟨id, id, id, fun _ => 1/2, id⟩ (fun x => by norm_num)
    100 100 (1/5) (1/100) 30 1 (-1) (by norm_num) (by norm_num) (by norm_num)
    (by norm_num) (by norm_num)).2.2

theorem mtmSeries_length (value : MarketSnapshot → MarketSnapshot → ℚ)
    (expiration_days : ℕ) (entry : MarketSnapshot) (realized : ℚ)
    (rest : List MarketSnapshot) :
    (mtmSeries value expiration_days entry realized rest).length = rest.length := by
  induction rest generalizing entry realized with
  | nil => rfl
  | cons cur tl ih =>
      rw [mtmSeries]
      split
      · simpa using ih _ _
      · simpa using ih _ _

theorem maxDrawdown_nonpos (cums : List ℚ) : maxDrawdown cums ≤ 0 := by
  have key : ∀ (xs : List ℚ) (st : ℚ × ℚ), st.2 ≤ 0 → (xs.foldl drawdownStep st).2 ≤ 0 := by
    intro xs
    induction xs with
    | nil => intro st h; exact h
    | cons x tl ih =>
        intro st h
        rw [List.foldl_cons]
        exact ih _ (le_trans (min_le_left _ _) h)
  exact key cums (0, 0) le_rfl

theorem winRate_mem_unit (changes : List ℚ) : 0 ≤ winRate changes ∧ winRate changes ≤ 1 := by
  unfold winRate
  split_ifs with h
  · norm_num
  · have hlen : 0 < (changes.length : ℚ) := by
      have : 0 < changes.length := Nat.pos_of_ne_zero h
      exact_mod_cast this
    constructor
    · positivity
    · rw [div_le_one hlen]
      exact_mod_cast changes.countP_le_length _

theorem variance_nonneg (xs : List ℚ) : 0 ≤ variance xs := by
  unfold variance
  split_ifs with h
  · exact le_refl 0
  · apply div_nonneg
    · apply List.sum_nonneg
      intro y hy
      rw [List.mem_map] at hy
      obtain ⟨x, _, rfl⟩ := hy
      positivity
    · positivity

/-- C3: for every backtest run on at least 2 snapshots, the P&L series is
non-empty, max_drawdown (the minimum over time of cumulative P&L minus its
running maximum) is at most 0, and win_rate lies in the closed interval
from 0 to 1. -/
theorem run_result_properties (A : AnalyticKernel)
    (value : MarketSnapshot → MarketSnapshot → ℚ)
    (snapshots : List MarketSnapshot) (expiration_days : ℕ)
    (h : 2 ≤ snapshots.length) :
    ∃ res, run A value snapshots expiration_days = Except.ok res ∧
      res.pnl_series ≠ [] ∧
      res.summary_statistics.max_drawdown ≤ 0 ∧
      0 ≤ res.summary_statistics.win_rate ∧
      res.summary_statistics.win_rate ≤ 1 := by
  match snapshots, h with
  | s0 :: s1 :: rest, _ =>
      refine ⟨⟨mtmSeries value expiration_days s0 0 (s1 :: rest),
        summaryStats A (mtmSeries value expiration_days s0 0 (s1 :: rest))⟩, rfl, ?_, ?_, ?_, ?_⟩
      · intro hnil
        have hlen := mtmSeries_length value expiration_days s0 0 (s1 :: rest)
        dsimp only at hnil
        rw [hnil] at hlen
        simp at hlen
      · exact maxDrawdown_nonpos _
      · exact (winRate_mem_unit _).1
      · exact (winRate_mem_unit _).2

/-- Witness for C3 on a concrete two-snapshot history. -/
theorem run_result_properties_witness :
    2 ≤ ([⟨0, 100, 15, 12, 14, 2⟩, ⟨1, 101, 15, 12, 14, 2⟩] :
      List MarketSnapshot).length ∧
    ∃ res, run ⟨id, id, id, id, id⟩ (fun _ cur => cur.close)
        [⟨0, 100, 15, 12, 14, 2⟩, ⟨1, 101, 15, 12, 14, 2⟩] 30 = Except.ok res ∧
      res.pnl_series ≠ [] ∧
      res.summary_statistics.max_drawdown ≤ 0 ∧
      0 ≤ res.summary_statistics.win_rate ∧
      res.summary_statistics.win_rate ≤ 1 := by
  exact ⟨by decide, run_result_properties ⟨id, id, id, id, id⟩ (fun _ cur => cur.close)
    [⟨0, 100, 15, 12, 14, 2⟩, ⟨1, 101, 15, 12, 14, 2⟩] 30 (by decide)⟩

/-- C6: fewer than 2 snapshots make the backtest run fail with the typed
error InsufficientHistory, and a feature window with fewer points than the
required minimum lookback makes extract fail with InsufficientHistory
rather than interpolating. -/
theorem insufficient_history_errors (A : AnalyticKernel)
    (value : MarketSnapshot → MarketSnapshot → ℚ)
    (snapshots window : List MarketSnapshot) (expiration_days : ℕ)
    (hrun : snapshots.length < 2) (hwin : window.length < minLookback) :
    run A value snapshots expiration_days = Except.error CoreError.InsufficientHistory ∧
    extract A window = Except.error CoreError.InsufficientHistory := by
  constructor
  · match snapshots, hrun with
    | [], _ => rfl
    | [s], _ => rfl
  · rw [extract, if_pos hwin]

/-- Witness for C6 on a one-snapshot history and a short feature window. -/
theorem insufficient_history_errors_witness :
    ([⟨0, 100, 15, 12, 14, 2⟩] : List MarketSnapshot).length < 2 ∧
    run ⟨id, id, id, id, id⟩ (fun _ cur => cur.close) [⟨0, 100, 15, 12, 14, 2⟩] 30 =
      Except.error CoreError.InsufficientHistory ∧
    extract ⟨id, id, id, id, id⟩ [⟨0, 100, 15, 12, 14, 2⟩] =
      Except.error CoreError.InsufficientHistory := by
  have h := insufficient_history_errors ⟨id, id, id, id, id⟩ (fun _ cur => cur.close)
    [⟨0, 100, 15, 12, 14, 2⟩] [⟨0, 100, 15, 12, 14, 2⟩] 30 (by decide) (by decide)
  exact ⟨by decide, h.1, h.2⟩

/-- C8: the Sharpe computations never divide by zero: the backtest summary
sharpe_ratio is the mean of daily P&L changes over their standard deviation
with the sentinel when that deviation is zero, and the analyzer risk-metrics
sharpe_ratio returns the sentinel when the payoff variance is near zero and
otherwise divides by a provably non-zero standard deviation. -/
theorem sharpe_never_divides_by_zero (A : AnalyticKernel)
    (hsqrt : ∀ x : ℚ, 0 < x → 0 < A.ksqrt x)
    (series : List PnlPoint) (expected_profit : ℚ) (payoffs : List ℚ) :
    (summaryStats A series).sharpe_ratio =
      backtestSharpe A (dailyChanges (series.map PnlPoint.pnl)) ∧
    (variance (dailyChanges (series.map PnlPoint.pnl)) = 0 →
      (summaryStats A series).sharpe_ratio = sharpeSentinel) ∧
    (variance (dailyChanges (series.map PnlPoint.pnl)) ≠ 0 →
      A.ksqrt (variance (dailyChanges (series.map PnlPoint.pnl))) ≠ 0 ∧
      (summaryStats A series).sharpe_ratio =
        mean (dailyChanges (series.map PnlPoint.pnl)) /
          A.ksqrt (variance (dailyChanges (series.map PnlPoint.pnl)))) ∧
    (variance payoffs ≤ varianceGuard →
      analyzerSharpe A expected_profit payoffs = sharpeSentinel) ∧
    (¬ variance payoffs ≤ varianceGuard →
      A.ksqrt (variance payoffs) ≠ 0 ∧
      analyzerSharpe A expected_profit payoffs =
        expected_profit / A.ksqrt (variance payoffs)) := by
  refine ⟨rfl, ?_, ?_, ?_, ?_⟩
  · intro hz
    simp [summaryStats, backtestSharpe, hz]
  · intro hz
    have hpos : 0 < variance (dailyChanges (series.map PnlPoint.pnl)) :=
      lt_of_le_of_ne (variance_nonneg _) (Ne.symm hz)
    refine ⟨ne_of_gt (hsqrt _ hpos), ?_⟩
    simp [summaryStats, backtestSharpe, hz]
  · intro hle
    simp [analyzerSharpe, hle]
  · intro hgt
    push_neg at hgt
    have hpos : 0 < variance payoffs := lt_trans (by norm_num [varianceGuard]) hgt
    refine ⟨ne_of_gt (hsqrt _ hpos), ?_⟩
    rw [analyzerSharpe, if_neg (not_le_of_lt hgt)]

/-- Witness for C8 with the identity square-root kernel, a concrete P&L
series with zero-variance changes, and a concrete payoff list. -/
theorem sharpe_never_divides_by_zero_witness :
    (∀ x : ℚ, 0 < x → 0 < (⟨id, id, id, id, id⟩ : AnalyticKernel).ksqrt x) ∧
    (variance (dailyChanges (([⟨1, 5⟩, ⟨2, 10⟩] : List PnlPoint).map PnlPoint.pnl)) = 0 →
      (summaryStats ⟨id, id, id, id, id⟩ [⟨1, 5⟩, ⟨2, 10⟩]).sharpe_ratio = sharpeSentinel) ∧
    (variance ([0, 4] : List ℚ) ≤ varianceGuard →
      analyzerSharpe ⟨id, id, id, id, id⟩ 2 [0, 4] = sharpeSentinel) := by
  have h := sharpe_never_divides_by_zero ⟨id, id, id, id, id⟩ (fun x hx => hx)
    [⟨1, 5⟩, ⟨2, 10⟩] 2 [0, 4]
  exact ⟨fun x hx => hx, h.2.1, h.2.2.2.1⟩

theorem annotate_map_snd (i : ℕ) (xs : List StrategyRecommendation) :
    (annotate i xs).map Prod.snd = xs := by
  induction xs generalizing i with
  | nil => rfl
  | cons x tl ih => simp [annotate, ih]

theorem annotate_mem_snd (i : ℕ) (xs : List StrategyRecommendation)
    (p : ℕ × StrategyRecommendation) (hp : p ∈ annotate i xs) : p.2 ∈ xs := by
  induction xs generalizing i with
  | nil => cases hp
  | cons x tl ih =>
      rw [annotate, List.mem_cons] at hp
      rcases hp with rfl | hp
      · simp
      · exact List.mem_cons_of_mem _ (ih _ hp)

theorem catalog_affinity_bounds :
    ∀ t ∈ catalog, ∀ r, 0 ≤ t.affinity r ∧ t.affinity r ≤ 1 := by
  intro t ht r
  fin_cases ht <;> cases r <;> norm_num

theorem termStructureFactor_bounds (t : StrategyTemplate) (slope : ℚ) :
    0 ≤ termStructureFactor t slope ∧ termStructureFactor t slope ≤ 1 := by
  unfold termStructureFactor
  split_ifs <;> norm_num

theorem skewFitFactor_bounds (t : StrategyTemplate) (skew : ℚ) :
    0 ≤ skewFitFactor t skew ∧ skewFitFactor t skew ≤ 1 := by
  unfold skewFitFactor
  split_ifs <;> norm_num

theorem scoreTemplate_bounds (c : RegimeClassification) (slope skew : ℚ)
    (t : StrategyTemplate) (ht : t ∈ catalog)
    (hp : ∀ r, 0 ≤ c.probabilities r) (hs : sumProbs c.probabilities = 1) :
    0 ≤ scoreTemplate c slope skew t ∧ scoreTemplate c slope skew t ≤ 1 := by
  have ha := catalog_affinity_bounds t ht
  have hdot : 0 ≤ dotAffinity c.probabilities t ∧ dotAffinity c.probabilities t ≤ 1 := by
    simp only [sumProbs] at hs
    constructor
    · simp only [dotAffinity, sumProbs]
      have n1 := mul_nonneg (hp Regime.Calm) (ha Regime.Calm).1
      have n2 := mul_nonneg (hp Regime.Trending) (ha Regime.Trending).1
      have n3 := mul_nonneg (hp Regime.MeanReverting) (ha Regime.MeanReverting).1
      have n4 := mul_nonneg (hp Regime.Explosive) (ha Regime.Explosive).1
      linarith
    · simp only [dotAffinity, sumProbs]
      have b1 := mul_le_of_le_one_right (hp Regime.Calm) (ha Regime.Calm).2
      have b2 := mul_le_of_le_one_right (hp Regime.Trending) (ha Regime.Trending).2
      have b3 := mul_le_of_le_one_right (hp Regime.MeanReverting) (ha Regime.MeanReverting).2
      have b4 := mul_le_of_le_one_right (hp Regime.Explosive) (ha Regime.Explosive).2
      linarith
  have hts := termStructureFactor_bounds t slope
  have hsk := skewFitFactor_bounds t skew
  unfold scoreTemplate
  constructor
  · exact mul_nonneg (mul_nonneg hdot.1 hts.1) hsk.1
  · exact mul_le_one₀ (mul_le_one₀ hdot.2 hts.1 hts.2) hsk.1 hsk.2

/-- C7: recommend returns the full list of recommendations sorted descending
by score, every score lies in the unit interval, and ties between equal
scores are broken by template declaration order, so the output order is
deterministic. -/
theorem recommend_ranked_full_list (c : RegimeClassification)
    (term_structure_slope skew : ℚ)
    (hp : ∀ r, 0 ≤ c.probabilities r) (hs : sumProbs c.probabilities = 1) :
    List.Sorted (fun a b : StrategyRecommendation => b.score ≤ a.score)
      (recommend c term_structure_slope skew) ∧
    (∀ rec ∈ recommend c term_structure_slope skew, 0 ≤ rec.score ∧ rec.score ≤ 1) ∧
    List.Perm (recommend c term_structure_slope skew)
      (catalog.map fun t => mkRecommendation t (scoreTemplate c term_structure_slope skew t)) ∧
    List.Pairwise (fun a b : ℕ × StrategyRecommendation =>
        a.2.score = b.2.score → a.1 ≤ b.1)
      (rankedRecs c term_structure_slope skew) := by
  have hsorted := List.sorted_insertionSort recBefore
    (annotatedRecs c term_structure_slope skew)
  have hperm : List.Perm (rankedRecs c term_structure_slope skew)
      (annotatedRecs c term_structure_slope skew) :=
    List.perm_insertionSort recBefore _
  refine ⟨?_, ?_, ?_, ?_⟩
  · exact hsorted.map Prod.snd fun a b hab =>
      hab.elim le_of_lt (fun h => le_of_eq h.1.symm)
  · intro rec hrec
    rw [recommend, List.mem_map] at hrec
    obtain ⟨p, hpmem, rfl⟩ := hrec
    have hmem : p ∈ annotatedRecs c term_structure_slope skew := hperm.subset hpmem
    have hsnd := annotate_mem_snd 0 _ p hmem
    rw [List.mem_map] at hsnd
    obtain ⟨t, htmem, hteq⟩ := hsnd
    rw [← hteq]
    exact scoreTemplate_bounds c term_structure_slope skew t htmem hp hs
  · have := hperm.map Prod.snd
    rw [recommend]
    rw [annotatedRecs, annotate_map_snd] at this
    exact this
  · exact hsorted.imp fun hab heq =>
      hab.elim (fun hlt => absurd heq.symm (ne_of_lt hlt)) And.right

/-- Witness for C7 at the uniform classification and flat market structure. -/
theorem recommend_ranked_full_list_witness :
    (∀ r, 0 ≤ (⟨Regime.Calm, fun _ => 1/4, 1/4⟩ : RegimeClassification).probabilities r) ∧
    List.Sorted (fun a b : StrategyRecommendation => b.score ≤ a.score)
      (recommend ⟨Regime.Calm, fun _ => 1/4, 1/4⟩ 0 0) := by
  have h := recommend_ranked_full_list ⟨Regime.Calm, fun _ => 1/4, 1/4⟩ 0 0
    (fun r => by norm_num) (by norm_num [sumProbs])
  exact ⟨fun r => by norm_num, h.1⟩

/-- C1: every backtest result object and every analysis result object expose
exactly the contracted field names on the wire: pnl_series of points with
timestamp and pnl plus summary_statistics with total_return, win_rate,
max_drawdown and sharpe_ratio; and metrics with expected_profit, max_loss,
probability_of_profit, greeks (delta, gamma, theta, vega) and risk_metrics
with sharpe_ratio.  In particular this holds for the result of every
successful run and analysis. -/
theorem result_objects_field_names :
    (∀ r : BacktestResult, objKeys (BacktestResult.toWire r) =
      ["pnl_series", "summary_statistics"]) ∧
    (∀ p : PnlPoint, objKeys (PnlPoint.toWire p) = ["timestamp", "pnl"]) ∧
    (∀ s : SummaryStatistics, objKeys (SummaryStatistics.toWire s) =
      ["total_return", "win_rate", "max_drawdown", "sharpe_ratio"]) ∧
    (∀ a : AnalysisResult, objKeys (AnalysisResult.toWire a) = ["metrics"]) ∧
    (∀ m : AnalysisMetrics, objKeys (AnalysisMetrics.toWire m) =
      ["expected_profit", "max_loss", "probability_of_profit", "greeks", "risk_metrics"]) ∧
    (∀ g : Greeks, objKeys (Greeks.toWire g) = ["delta", "gamma", "theta", "vega"]) ∧
    (∀ rm : RiskMetrics, objKeys (RiskMetrics.toWire rm) = ["sharpe_ratio"]) :=
  ⟨fun _ => rfl, fun _ => rfl, fun _ => rfl, fun _ => rfl, fun _ => rfl,
    fun _ => rfl, fun _ => rfl⟩

/-- C9: both pages select strategy_type only from the closed five-element
set calendar_spread, butterfly, straddle, iron_condor, backspread — exactly
the names of the closed template catalog — and every reachable page value
looks up successfully, so UnsupportedStrategyType is unreachable for
UI-originated requests. -/
theorem ui_strategy_types_supported :
    analysisStrategyTypes.map Prod.fst =
      ["calendar_spread", "butterfly", "straddle", "iron_condor", "backspread"] ∧
    backtestStrategyTypes.map Prod.fst =
      ["calendar_spread", "butterfly", "straddle", "iron_condor", "backspread"] ∧
    catalog.map StrategyTemplate.name =
      ["calendar_spread", "butterfly", "straddle", "iron_condor", "backspread"] ∧
    (∀ v, AnalysisReachable v → lookupOk (lookupTemplate v) = true) ∧
    (∀ v, BacktestReachable v → lookupOk (lookupTemplate v) = true) := by
  refine ⟨rfl, rfl, rfl, ?_, ?_⟩
  · intro v h
    cases h with
    | init => rfl
    | selected v l hmem => fin_cases hmem <;> rfl
  · intro v h
    cases h with
    | init => rfl
    | selected v l hmem => fin_cases hmem <;> rfl

/-- Witness for C9 at a concrete reachable selector value. -/
theorem ui_strategy_types_supported_witness :
    AnalysisReachable "straddle" ∧ lookupOk (lookupTemplate "straddle") = true := by
  have hmem : ("straddle", "Long Straddle") ∈ analysisStrategyTypes := by decide
  exact ⟨AnalysisReachable.selected _ _ hmem,
    ui_strategy_types_supported.2.2.2.1 "straddle" (AnalysisReachable.selected _ _ hmem)⟩

/-- C10: the analysis page sends a POST to /strategy/analyze whose JSON body
has exactly the fields strategy_type, expiration_days, strike_percentage and
position_size; the backtest page sends a GET to /strategy/backtest carrying
those fields plus days as URL query parameters; the two forms default to
calendar_spread, 30, 100, 1 (the backtest lookback days defaulting to 30). -/
theorem strategy_request_transports :
    (∀ p : StrategyParams, (analyzeRequest p).method = HttpMethod.post ∧
      (analyzeRequest p).url = API_BASE_URL ++ "/strategy/analyze" ∧
      (analyzeRequest p).query = [] ∧
      ((analyzeRequest p).body.getD []).map Prod.fst =
        ["strategy_type", "expiration_days", "strike_percentage", "position_size"]) ∧
    (∀ p : BacktestParams, (backtestRequest p).method = HttpMethod.get ∧
      (backtestRequest p).url = API_BASE_URL ++ "/strategy/backtest" ∧
      (backtestRequest p).body = none ∧
      (backtestRequest p).query.map Prod.fst =
        ["strategy_type", "days", "expiration_days", "strike_percentage", "position_size"]) ∧
    defaultStrategyParams = ⟨"calendar_spread", 30, 100, 1⟩ ∧
    defaultBacktestParams = ⟨"calendar_spread", 30, 30, 100, 1⟩ :=
  ⟨fun _ => ⟨rfl, rfl, rfl, rfl⟩, fun _ => ⟨rfl, rfl, rfl, rfl⟩, rfl, rfl⟩

end VolRegime
